import Mathlib

set_option autoImplicit false

/-!
# Verification of the quicky order-pricing and request-signing pipeline

Shallow embedding of the core of `quicky` (a tool that places a single
"quick" limit order against the Bybit REST API), translated from
`src/util.rs`, `src/types.rs` and `src/main.rs`.

Modelling conventions:
* Rust `f64` values are modelled as exact rationals (`ℚ`); `f64::round`
  (round half away from zero) is modelled by `rust_round`.
* Rust machine integers are modelled as `ℤ`/`ℕ` with explicit wrapping
  (`% 2 ^ 64`) where overflow matters (`i64::abs` / `as u64`).
* The external collaborators (URL parsing from the `url` crate, the HTTP
  request builder and transport from `isahc`, JSON decoding from `serde`)
  are injected through explicit environment records, matching the spec's
  view of them as an injected HTTP-client capability.  Each model function
  additionally returns the number of times the injected transport was
  invoked.
* Rust panics (`unwrap` on `None` / a failed builder, integer-overflow
  aborts) are modelled by an explicit `RunResult.panicked` outcome.
* The `HashMap<String, f64>` of tick steps is modelled as an association
  list `List (String × ℚ)` with `List.lookup`.
-/

/-- `StatusCode` from `src/types.rs`: result of API related calls and
internal operations. -/
inductive StatusCode where
  | Success
  | InternalErrorGeneric
  | InternalErrorParsingRawUrl
  | InternalErrorCreatingHttpRequest
  | InternalErrorParsingJsonObject
  | InternalErrorNoTickStepAvailable
  | ErrorApiResponse
  | ErrorJsonParsing
  | ErrorNumericJsonParsing
  | MalformedAPIResponseFormat
  | ApiEmptyResult
  | ErrorIncorrectParameterValue
  deriving DecidableEq, Repr

/-- `TradingContext` from `src/types.rs`.  The tick-step `HashMap` is
modelled as an association list. -/
structure TradingContext where
  api_key : String
  api_secret : String
  testnet_api_key : String
  testnet_api_secret : String
  tick_steps : List (String × ℚ)
  stop_loss_pcnt : ℚ
  use_testnet : Bool

/-- `get_api_key` from `src/util.rs`. -/
def get_api_key (context : TradingContext) : String :=
  if context.use_testnet then context.testnet_api_key else context.api_key

/-- `get_api_secret` from `src/util.rs`. -/
def get_api_secret (context : TradingContext) : String :=
  if context.use_testnet then context.testnet_api_secret else context.api_secret

/-- Rust `f64::round`: round to the nearest integer, ties away from zero. -/
def rust_round (x : ℚ) : ℤ :=
  if 0 ≤ x then ⌊x + 1 / 2⌋ else -⌊-x + 1 / 2⌋

/-- The tick-rounding pattern of `api_send_quick_limit_order`
(`src/util.rs` lines 38 and 44): `(x * roundup).round() / roundup`. -/
def tick_round (x roundup : ℚ) : ℚ :=
  (rust_round (x * roundup) : ℚ) / roundup

/-- The `while value_copy < 1.0` loop of `count_tick_steps`
(`src/util.rs` lines 326-329).  The source loop diverges for
non-positive input (the spec declares that undefined behaviour and a
caller-side precondition), so the model carries the positivity
hypothesis needed for termination. -/
def tick_loop (v : ℚ) (hv : 0 < v) (count : ℕ) : ℕ :=
  if h : v < 1 then
    tick_loop (v * 10) (by positivity) (count + 1)
  else
    count
termination_by ⌈1 / v⌉.toNat
decreasing_by
  have hx : (1 : ℚ) < 1 / v := (one_lt_div hv).mpr h
  have h2 : (2 : ℤ) ≤ ⌈1 / v⌉ := by
    have h1 : (1 : ℤ) < ⌈1 / v⌉ := Int.lt_ceil.mpr (by exact_mod_cast hx)
    omega
  have hstep : ⌈1 / (v * 10)⌉ < ⌈1 / v⌉ := by
    have hrw : 1 / (v * 10) = (1 / v) / 10 := by
      field_simp
    rw [hrw]
    set x : ℚ := 1 / v
    by_cases hc : x ≤ 10
    · have hle : x / 10 ≤ 1 := by linarith
      have hc1 : ⌈x / 10⌉ ≤ ⌈(1 : ℚ)⌉ := Int.ceil_le_ceil hle
      have hc2 : ⌈(1 : ℚ)⌉ = 1 := by norm_num
      omega
    · push_neg at hc
      have hcl : ((⌈x / 10⌉ : ℤ) : ℚ) < x / 10 + 1 := Int.ceil_lt_add_one _
      have hxc : x ≤ ((⌈x⌉ : ℤ) : ℚ) := Int.le_ceil x
      have hfin : ((⌈x / 10⌉ : ℤ) : ℚ) < ((⌈x⌉ : ℤ) : ℚ) := by linarith
      exact_mod_cast hfin
  omega

/-- `count_tick_steps` from `src/util.rs`: count the decimal steps of a
tick size (e.g. `0.0001` has 4 steps).  For non-positive input the source
loops forever (undefined behaviour per the spec); the model returns the
junk value `0` there instead. -/
def count_tick_steps (value : ℚ) : ℕ :=
  if 1 ≤ value then 0
  else if h : 0 < value then tick_loop value h 0
  else 0

/-- Fuel-indexed version of the `count_tick_steps` loop, used to state
termination: `none` means the fuel ran out before the loop guard
`value_copy < 1.0` became false. -/
def tick_loop_fuel : ℕ → ℚ → ℕ → Option ℕ
  | 0, v, count => if v < 1 then none else some count
  | fuel + 1, v, count =>
      if v < 1 then tick_loop_fuel fuel (v * 10) (count + 1) else some count

/-- Wrap an integer into the signed 64-bit range (two's complement). -/
def wrap_i64 (n : ℤ) : ℤ :=
  (n + 2 ^ 63) % 2 ^ 64 - 2 ^ 63

/-- Rust release-mode `i64::abs`: overflow wraps, so
`i64::MIN.abs() = i64::MIN`. -/
def rust_i64_abs (q : ℤ) : ℤ :=
  if q < 0 then wrap_i64 (-q) else q

/-- Rust `as u64` cast of an `i64` value: reduction modulo `2 ^ 64`. -/
def i64_as_u64 (q : ℤ) : ℕ :=
  (q % 2 ^ 64).toNat

/-- `qty.abs() as u64` from `src/util.rs` line 42, under release-mode
(wrapping) overflow semantics. -/
def qty_abs_model (qty : ℤ) : ℕ :=
  i64_as_u64 (rust_i64_abs qty)

/-- Parse a nonempty all-digit character list into a natural number. -/
def digits_to_nat (l : List Char) : Option ℕ :=
  if l ≠ [] ∧ l.all Char.isDigit then
    some (l.foldl (fun a c => a * 10 + (c.toNat - 48)) 0)
  else none

/-- Model of Rust `str::parse::<f64>()` as used on the ticker's
`last_price` field (`src/util.rs` line 158), restricted to plain decimal
literals (optional sign, integer digits, optional fractional digits).
Exponent, `inf` and `NaN` forms are outside the model. -/
def parse_f64 (s : String) : Option ℚ :=
  let withSign : ℚ × List Char :=
    match s.toList with
    | '-' :: r => (-1, r)
    | '+' :: r => (1, r)
    | r => (1, r)
  let intPart := withSign.2.takeWhile (fun c => c ≠ '.')
  let rest := withSign.2.dropWhile (fun c => c ≠ '.')
  match digits_to_nat intPart, rest with
  | some n, [] => some (withSign.1 * n)
  | some n, ['.'] => some (withSign.1 * n)
  | some n, '.' :: frac =>
      match digits_to_nat frac with
      | some f => some (withSign.1 * ((n : ℚ) + (f : ℚ) / 10 ^ frac.length))
      | none => none
  | _, _ => none

/-- Decimal digits of a fractional part `0 ≤ r < 1`, at most `k` of them,
stopping when the remainder is zero. -/
def frac_digits : ℕ → ℚ → List Char
  | 0, _ => []
  | k + 1, r =>
      if r = 0 then []
      else Char.ofNat (48 + (⌊r * 10⌋).toNat) :: frac_digits k (r * 10 - ⌊r * 10⌋)

/-- Model of Rust `Display` for `f64` as used by the `format!` of
`src/util.rs` line 48, restricted to values whose decimal expansion
terminates within 17 fractional digits: optional sign, integer part, and
fractional digits only when nonzero (`100.0` prints as `"100"`). -/
def fmt_f64 (q : ℚ) : String :=
  let sgn := if q < 0 then "-" else ""
  let a := |q|
  let ds := frac_digits 17 (a - ⌊a⌋)
  sgn ++ toString (⌊a⌋).toNat ++ (if ds.isEmpty then "" else "." ++ String.mk ds)

/-! ## HMAC-SHA256 (model of the `ring` crate's `hmac` module)

`sign_private_request_params` (`src/util.rs` lines 248-254) calls
`ring::hmac` with `HMAC_SHA256`.  The model below is the FIPS 180-4 /
RFC 2104 algorithm over byte lists, with 32-bit words as `ℕ` reduced
modulo `2 ^ 32`. -/

/-- Truncate to a 32-bit word. -/
def w32 (n : ℕ) : ℕ := n % 2 ^ 32

/-- 32-bit right rotation. -/
def rotr32 (n x : ℕ) : ℕ := w32 ((x >>> n) ||| (x <<< (32 - n)))

/-- 32-bit bitwise complement. -/
def compl32 (x : ℕ) : ℕ := x ^^^ (2 ^ 32 - 1)

/-- SHA-256 `Ch` function. -/
def sha_ch (x y z : ℕ) : ℕ := (x &&& y) ^^^ (compl32 x &&& z)

/-- SHA-256 `Maj` function. -/
def sha_maj (x y z : ℕ) : ℕ := (x &&& y) ^^^ (x &&& z) ^^^ (y &&& z)

/-- SHA-256 `Σ0`. -/
def big_sigma0 (x : ℕ) : ℕ := rotr32 2 x ^^^ rotr32 13 x ^^^ rotr32 22 x

/-- SHA-256 `Σ1`. -/
def big_sigma1 (x : ℕ) : ℕ := rotr32 6 x ^^^ rotr32 11 x ^^^ rotr32 25 x

/-- SHA-256 `σ0`. -/
def small_sigma0 (x : ℕ) : ℕ := rotr32 7 x ^^^ rotr32 18 x ^^^ (x >>> 3)

/-- SHA-256 `σ1`. -/
def small_sigma1 (x : ℕ) : ℕ := rotr32 17 x ^^^ rotr32 19 x ^^^ (x >>> 10)

/-- SHA-256 round constants (FIPS 180-4 §4.2.2). -/
def sha_k : List ℕ :=
  [1116352408, 1899447441, 3049323471, 3921009573, 961987163, 1508970993,
   2453635748, 2870763221, 3624381080, 310598401, 607225278, 1426881987,
   1925078388, 2162078206, 2614888103, 3248222580, 3835390401, 4022224774,
   264347078, 604807628, 770255983, 1249150122, 1555081692, 1996064986,
   2554220882, 2821834349, 2952996808, 3210313671, 3336571891, 3584528711,
   113926993, 338241895, 666307205, 773529912, 1294757372, 1396182291,
   1695183700, 1986661051, 2177026350, 2456956037, 2730485921, 2820302411,
   3259730800, 3345764771, 3516065817, 3600352804, 4094571909, 275423344,
   430227734, 506948616, 659060556, 883997877, 958139571, 1322822218,
   1537002063, 1747873779, 1955562222, 2024104815, 2227730452, 2361852424,
   2428436474, 2756734187, 3204031479, 3329325298]

/-- SHA-256 initial hash state (FIPS 180-4 §5.3.3). -/
def sha_h0 : List ℕ :=
  [1779033703, 3144134277, 1013904242, 2773480762,
   1359893119, 2600822924, 528734635, 1541459225]

/-- Big-endian 8-byte encoding of a 64-bit length. -/
def be64 (n : ℕ) : List ℕ :=
  [(n >>> 56) % 256, (n >>> 48) % 256, (n >>> 40) % 256, (n >>> 32) % 256,
   (n >>> 24) % 256, (n >>> 16) % 256, (n >>> 8) % 256, n % 256]

/-- Big-endian 4-byte encoding of a 32-bit word. -/
def be32 (n : ℕ) : List ℕ :=
  [(n >>> 24) % 256, (n >>> 16) % 256, (n >>> 8) % 256, n % 256]

/-- SHA-256 message padding: `0x80`, zeros to 56 mod 64, then the bit
length in 8 big-endian bytes. -/
def sha_pad (msg : List ℕ) : List ℕ :=
  msg ++ [0x80] ++ List.replicate ((119 - msg.length % 64) % 64) 0 ++ be64 (8 * msg.length)

/-- Group bytes into big-endian 32-bit words. -/
def bytes_to_words : List ℕ → List ℕ
  | a :: b :: c :: d :: rest => (((a * 256 + b) * 256 + c) * 256 + d) :: bytes_to_words rest
  | _ => []

/-- One step of the SHA-256 message-schedule extension. -/
def sched_step (ws : List ℕ) : List ℕ :=
  ws ++ [w32 (small_sigma1 (ws.getD (ws.length - 2) 0) + ws.getD (ws.length - 7) 0 +
              small_sigma0 (ws.getD (ws.length - 15) 0) + ws.getD (ws.length - 16) 0)]

/-- Iterate the message-schedule extension. -/
def sched_iter : ℕ → List ℕ → List ℕ
  | 0, ws => ws
  | n + 1, ws => sched_iter n (sched_step ws)

/-- One SHA-256 compression round on the 8-word working state. -/
def sha_round (st : List ℕ) (k w : ℕ) : List ℕ :=
  match st with
  | [a, b, c, d, e, f, g, h] =>
      let t1 := w32 (h + big_sigma1 e + sha_ch e f g + k + w)
      let t2 := w32 (big_sigma0 a + sha_maj a b c)
      [w32 (t1 + t2), a, b, c, w32 (d + t1), e, f, g]
  | other => other

/-- Run the 64 compression rounds over the zipped (constant, word) list. -/
def sha_rounds : List (ℕ × ℕ) → List ℕ → List ℕ
  | [], st => st
  | kw :: rest, st => sha_rounds rest (sha_round st kw.1 kw.2)

/-- Compress one 64-byte block into the hash state. -/
def sha_compress (hs : List ℕ) (block : List ℕ) : List ℕ :=
  let ws := sched_iter 48 (bytes_to_words block)
  let st := sha_rounds (sha_k.zip ws) hs
  (hs.zip st).map (fun p => w32 (p.1 + p.2))

/-- Split a byte list into 64-byte blocks. -/
def sha_blocks (l : List ℕ) : List (List ℕ) :=
  match l with
  | [] => []
  | x :: xs => ((x :: xs).take 64) :: sha_blocks ((x :: xs).drop 64)
termination_by l.length
decreasing_by simp; omega

/-- SHA-256 of a byte list, as a 32-byte list. -/
def sha256 (msg : List ℕ) : List ℕ :=
  (((sha_blocks (sha_pad msg)).foldl sha_compress sha_h0).map be32).flatten

/-- HMAC-SHA256 (RFC 2104): model of `ring::hmac::sign` with a key built
by `ring::hmac::Key::new(HMAC_SHA256, secret)`. -/
def hmac_sha256 (key msg : List ℕ) : List ℕ :=
  let k0 := if 64 < key.length then sha256 key else key
  let kpad := k0 ++ List.replicate (64 - k0.length) 0
  sha256 ((kpad.map (fun b => b ^^^ 0x5c)) ++ sha256 ((kpad.map (fun b => b ^^^ 0x36)) ++ msg))

/-- Model of `ring::hmac::verify`: recompute the tag for the same key and
message and compare (the comparison is constant-time in `ring`; the
result value only records equality). -/
def hmac_verify (key msg tag : List ℕ) : Bool :=
  hmac_sha256 key msg == tag

/-- UTF-8 bytes of a string (`str::as_bytes`). -/
def str_bytes (s : String) : List ℕ :=
  s.toUTF8.toList.map (fun b => b.toNat)

/-- Lower-case hex digit. -/
def hex_digit (n : ℕ) : Char :=
  if n < 10 then Char.ofNat (48 + n) else Char.ofNat (87 + n)

/-- Lower-case two-digit hex of a byte (`format!` with the `02x` spec). -/
def byte_to_hex (b : ℕ) : String :=
  String.mk [hex_digit (b / 16 % 16), hex_digit (b % 16)]

/-- `sign_private_request_params` from `src/util.rs`: HMAC-SHA256 sign
`str` with `secret` as key, assert that verification of the fresh
signature succeeds, and hex-encode the digest in lower case. -/
def sign_private_request_params (str : String) (secret : String) : String :=
  String.join ((hmac_sha256 (str_bytes secret) (str_bytes str)).map byte_to_hex)

/-! ## The HTTP pipeline model

The `url`, `isahc` and `serde` collaborators are injected through
environment records, and every model function reports how many times the
injected transport (`isahc::send`) was invoked. -/

/-- Outcome of one transport invocation followed by response decoding:
`isahc::send` failing, `res.json::<T>()` failing, or a decoded value. -/
inductive SendResult (α : Type) where
  | transportErr
  | decodeErr
  | ok (response : α)
  deriving DecidableEq

/-- Result of a modelled call: a Rust `Result` value, or a panic
(`unwrap` of a failed value). -/
inductive RunResult (α : Type) where
  | ok (a : α)
  | err (code : StatusCode)
  | panicked
  deriving DecidableEq

/-- The consumed field of `BybitLatestInformationSymbolResult`
(`src/types.rs`): only `last_price` is read by the core. -/
structure TickerRow where
  last_price : String
  deriving DecidableEq

/-- The consumed fields of `BybitLatestInformationSymbolResponse`
(`src/types.rs`): `ret_code`, `ret_msg` (only logged) and `result`
(`None` on error responses). -/
structure TickerResponse where
  ret_code : ℕ
  ret_msg : String
  result : Option (List TickerRow)
  deriving DecidableEq

/-- The consumed field of `BybitGenericNoResultResponse`
(`src/types.rs`): only `ret_code` is branched on. -/
structure OrderResponse where
  ret_code : ℕ
  deriving DecidableEq

/-- Injected collaborators for one `api_get_current_price` call: whether
`Url::parse` succeeds on the constructed ticker URL, whether the
`isahc::Request` builder succeeds, and the transport/decode outcome. -/
structure QuoteEnv where
  url_ok : Bool
  request_ok : Bool
  response : SendResult TickerResponse

/-- The `RequestObj` struct serialized as the order-creation request
body (`src/util.rs` lines 52-77). -/
structure RequestObj where
  api_key : String
  order_type : String
  price : ℚ
  qty : ℕ
  side : String
  stop_loss : ℚ
  symbol : String
  timestamp : String
  time_in_force : String
  sign : String
  deriving DecidableEq

/-- Injected collaborators for the order-submission half of
`api_send_quick_limit_order`: the wall clock
(`get_unix_timestamp_as_millis`), whether `Url::parse` succeeds on the
order URL, whether `serde_json::to_vec` succeeds, whether the request
builder succeeds, and the transport/decode outcome as a function of the
submitted request object. -/
structure OrderEnv where
  quote : QuoteEnv
  now_millis : ℕ
  url_ok : Bool
  serialize_ok : Bool
  request_build_ok : Bool
  response : RequestObj → SendResult OrderResponse

/-- `api_get_current_price` from `src/util.rs` lines 123-171, with the
external collaborators injected via `env`.  The second component counts
the transport invocations (`isahc::send` calls). -/
def api_get_current_price (env : QuoteEnv) (_context : TradingContext)
    (_symbol : String) : RunResult ℚ × ℕ :=
  if ¬env.url_ok then (.err .InternalErrorParsingRawUrl, 0)
  else if ¬env.request_ok then (.err .InternalErrorCreatingHttpRequest, 0)
  else
    match env.response with
    | .transportErr => (.err .ErrorApiResponse, 1)
    | .decodeErr => (.err .ErrorJsonParsing, 1)
    | .ok json =>
        if json.ret_code ≠ 0 then (.err .ErrorApiResponse, 1)
        else
          match json.result with
          | none => (.panicked, 1)
          | some result =>
              match result with
              | [] => (.err .ApiEmptyResult, 1)
              | row :: _ =>
                  match parse_f64 row.last_price with
                  | some price => (.ok price, 1)
                  | none => (.err .ErrorNumericJsonParsing, 1)

/-- The `format!` of `src/util.rs` line 48: the canonical parameter
string that is signed for the private API. -/
def make_param_str (api_key : String) (price : ℚ) (qty : ℕ) (side : String)
    (stop_loss : ℚ) (symbol : String) (timestamp : String) : String :=
  "api_key=" ++ api_key ++ "&order_type=Limit&price=" ++ fmt_f64 price ++
  "&qty=" ++ toString qty ++ "&side=" ++ side ++ "&stop_loss=" ++ fmt_f64 stop_loss ++
  "&symbol=" ++ symbol ++ "&time_in_force=PostOnly&timestamp=" ++ timestamp

/-- The price-derivation, canonicalization and signing block of
`api_send_quick_limit_order` (`src/util.rs` lines 34-77), as a pure
function of the quoted price, tick step, quantity and timestamp.
Returns the canonical parameter string and the request body object. -/
def build_order_request (context : TradingContext) (symbol : String) (qty : ℤ)
    (price : ℚ) (tick_step : ℚ) (now_millis : ℕ) : String × RequestObj :=
  let is_buy_side := 0 < qty
  let tick_step_value_roundup : ℚ := 10 ^ count_tick_steps tick_step
  let stop_loss_pcnt := context.stop_loss_pcnt
  let target_limit_price : ℚ :=
    if is_buy_side then tick_round (price - tick_step) tick_step_value_roundup
    else tick_round (price + tick_step) tick_step_value_roundup
  let curr_unix_timestamp_str := toString now_millis
  let side := if is_buy_side then "Buy" else "Sell"
  let qty_abs : ℕ := qty_abs_model qty
  let stop_loss_price : ℚ :=
    if is_buy_side then
      tick_round (price * (1 - stop_loss_pcnt / 100)) tick_step_value_roundup
    else
      tick_round (price * (1 + stop_loss_pcnt / 100)) tick_step_value_roundup
  let param_str := make_param_str (get_api_key context) target_limit_price qty_abs
      side stop_loss_price symbol curr_unix_timestamp_str
  (param_str,
   { api_key := get_api_key context
     order_type := "Limit"
     price := target_limit_price
     qty := qty_abs
     side := side
     stop_loss := stop_loss_price
     symbol := symbol
     timestamp := curr_unix_timestamp_str
     time_in_force := "PostOnly"
     sign := sign_private_request_params param_str (get_api_secret context) })

/-- `api_send_quick_limit_order` from `src/util.rs` lines 20-116, with
the external collaborators injected via `env`.  The second component
counts the total transport invocations (quote fetch plus order
submission). -/
def api_send_quick_limit_order (env : OrderEnv) (context : TradingContext)
    (symbol : String) (qty : ℤ) : RunResult Unit × ℕ :=
  if (context.tick_steps.lookup symbol).isNone then
    (.err .InternalErrorNoTickStepAvailable, 0)
  else
    match api_get_current_price env.quote context symbol with
    | (.err e, n) => (.err e, n)
    | (.panicked, n) => (.panicked, n)
    | (.ok price, n) =>
        if qty = 0 then (.err .ErrorIncorrectParameterValue, n)
        else
          match context.tick_steps.lookup symbol with
          | none => (.panicked, n)
          | some tick_step =>
              let req := (build_order_request context symbol qty price tick_step
                env.now_millis).2
              if ¬env.url_ok then (.err .InternalErrorCreatingHttpRequest, n)
              else if ¬env.serialize_ok then (.err .InternalErrorParsingJsonObject, n)
              else if ¬env.request_build_ok then (.panicked, n)
              else
                match env.response req with
                | .transportErr => (.err .ErrorApiResponse, n + 1)
                | .decodeErr => (.err .ErrorJsonParsing, n + 1)
                | .ok json =>
                    if json.ret_code = 0 then (.ok (), n + 1)
                    else (.err .ErrorApiResponse, n + 1)

/-- Join a list of `key=value` strings with the `"&"` separator, as the
spec describes the canonical parameter string. -/
def join_amp : List String → String
  | [] => ""
  | [x] => x
  | x :: y :: xs => x ++ "&" ++ join_amp (y :: xs)

/-- A sample trading context: tick size `0.01` for symbol `"SYM"`,
stop-loss percentage `0.2`, testnet credentials active. -/
def sample_context : TradingContext :=
  { api_key := "key", api_secret := "secret"
    testnet_api_key := "tkey", testnet_api_secret := "tsecret"
    tick_steps := [("SYM", 1 / 100)]
    stop_loss_pcnt := 1 / 5
    use_testnet := true }

/-- A quote environment where everything succeeds and the exchange
reports last price `"100.0"`. -/
def sample_quote_env : QuoteEnv :=
  { url_ok := true
    request_ok := true
    response := .ok { ret_code := 0, ret_msg := "OK", result := some [{ last_price := "100.0" }] } }

/-- An order environment where every collaborator succeeds and the
exchange accepts the order. -/
def sample_order_env : OrderEnv :=
  { quote := sample_quote_env
    now_millis := 42
    url_ok := true
    serialize_ok := true
    request_build_ok := true
    response := fun _ => .ok { ret_code := 0 } }

/-! ## Properties of the tick resolution utility -/

/-- Characterization of the `count_tick_steps` loop: starting from a
positive `v` with accumulator `c`, the loop result is at least `c`, the
scaled value reaches `1`, and it does so for the first time at the loop
result. -/
theorem tick_loop_spec (v : ℚ) (hv : 0 < v) (c : ℕ) :
    c ≤ tick_loop v hv c ∧ 1 ≤ v * 10 ^ (tick_loop v hv c - c) ∧
      ∀ m, m < tick_loop v hv c - c → v * 10 ^ m < 1 := by
  induction v, hv, c using tick_loop.induct with
  | case1 v hv c h ih =>
      obtain ⟨ih1, ih2, ih3⟩ := ih
      rw [tick_loop, dif_pos h]
      refine ⟨by omega, ?_, ?_⟩
      · have hrw : v * 10 ^ (tick_loop (v * 10) (by positivity) (c + 1) - c) =
            v * 10 * 10 ^ (tick_loop (v * 10) (by positivity) (c + 1) - (c + 1)) := by
          have hs : tick_loop (v * 10) (by positivity) (c + 1) - c =
              (tick_loop (v * 10) (by positivity) (c + 1) - (c + 1)) + 1 := by omega
          rw [hs, pow_succ]
          ring
        rw [hrw]
        exact ih2
      · intro m hm
        match m with
        | 0 => simpa using h
        | m' + 1 =>
            have hm' : m' < tick_loop (v * 10) (by positivity) (c + 1) - (c + 1) := by omega
            have := ih3 m' hm'
            calc v * 10 ^ (m' + 1) = v * 10 * 10 ^ m' := by ring
            _ < 1 := this
  | case2 v hv c h =>
      rw [tick_loop, dif_neg h]
      refine ⟨le_refl c, ?_, ?_⟩
      · simpa using le_of_not_lt h
      · intro m hm
        omega

/-- `count_tick_steps` on a positive tick size reaches scale `1` and is
minimal with that property. -/
theorem count_tick_steps_min (t : ℚ) (ht : 0 < t) :
    1 ≤ t * 10 ^ count_tick_steps t ∧
      ∀ m, m < count_tick_steps t → t * 10 ^ m < 1 := by
  by_cases h1 : 1 ≤ t
  · rw [count_tick_steps, if_pos h1]
    constructor
    · simpa using h1
    · intro m hm
      omega
  · rw [count_tick_steps, if_neg h1, dif_pos ht]
    have := tick_loop_spec t ht 0
    simpa using this.2

/-- `count_tick_steps` is pinned down by the least-`n` property. -/
theorem count_tick_steps_eq (t : ℚ) (ht : 0 < t) (n : ℕ)
    (h1 : 1 ≤ t * 10 ^ n) (h2 : ∀ m, m < n → t * 10 ^ m < 1) :
    count_tick_steps t = n := by
  obtain ⟨g1, g2⟩ := count_tick_steps_min t ht
  by_contra hne
  rcases Nat.lt_or_ge (count_tick_steps t) n with hlt | hge
  · have := h2 _ hlt
    linarith
  · have hgt : n < count_tick_steps t := by omega
    have := g2 _ hgt
    linarith

/-- C5: for every positive tick size `t`, `count_tick_steps` returns the
smallest integer `n ≥ 0` such that `t * 10 ^ n ≥ 1`; in particular it
returns `0` for every `t ≥ 1`, and exactly `k` for `t = 10 ^ (-k)`. -/
theorem count_tick_steps_least (t : ℚ) (ht : 0 < t) :
    (1 ≤ t * 10 ^ count_tick_steps t ∧
      ∀ m, m < count_tick_steps t → t * 10 ^ m < 1) ∧
    (1 ≤ t → count_tick_steps t = 0) ∧
    (∀ k : ℕ, t = 1 / 10 ^ k → count_tick_steps t = k) := by
  refine ⟨count_tick_steps_min t ht, ?_, ?_⟩
  · intro h1
    rw [count_tick_steps, if_pos h1]
  · rintro k rfl
    refine count_tick_steps_eq _ ht k (by norm_num) ?_
    intro m hm
    rw [div_mul_eq_mul_div, one_mul, div_lt_one (by positivity)]
    exact pow_lt_pow_right₀ (by norm_num) hm

/-- Witness for C5 at the concrete tick size `t = 10 ^ (-3) = 0.001`. -/
theorem count_tick_steps_least_witness :
    count_tick_steps (1 / 1000) = 3 := by
  have h := (count_tick_steps_least (1 / 1000) (by norm_num)).2.2 3 (by norm_num)
  exact h

/-- With enough fuel (any `n` with `1 ≤ v * 10 ^ n`), the fuel-indexed
loop finishes. -/
theorem tick_loop_fuel_some (fuel : ℕ) :
    ∀ v : ℚ, ∀ c : ℕ, 1 ≤ v * 10 ^ fuel → ∃ r, tick_loop_fuel fuel v c = some r := by
  induction fuel with
  | zero =>
      intro v c h
      rw [tick_loop_fuel]
      rw [if_neg (by simpa using h : ¬v < 1)]
      exact ⟨c, rfl⟩
  | succ n ih =>
      intro v c h
      rw [tick_loop_fuel]
      by_cases hv : v < 1
      · rw [if_pos hv]
        refine ih (v * 10) (c + 1) ?_
        calc (1 : ℚ) ≤ v * 10 ^ (n + 1) := h
        _ = v * 10 * 10 ^ n := by ring
      · rw [if_neg hv]
        exact ⟨c, rfl⟩

/-- C6: the `count_tick_steps` loop terminates for every positive input:
some finite fuel suffices for the fuel-indexed loop to finish. -/
theorem tick_loop_terminates (t : ℚ) (ht : 0 < t) :
    ∃ fuel r, tick_loop_fuel fuel t 0 = some r := by
  obtain ⟨h1, _⟩ := count_tick_steps_min t ht
  exact ⟨count_tick_steps t, tick_loop_fuel_some _ t 0 h1⟩

/-- Witness for C6 at the concrete tick size `t = 0.001`. -/
theorem tick_loop_terminates_witness :
    ∃ fuel r, tick_loop_fuel fuel (1 / 1000) 0 = some r :=
  tick_loop_terminates (1 / 1000) (by norm_num)

/-! ## The canonical parameter string and derived prices -/

/-- Merging two adjacent string literals under right association. -/
theorem str_append_left_merge (a b ab : String) (h : a ++ b = ab) (X : String) :
    a ++ (b ++ X) = ab ++ X := by
  rw [← String.append_assoc, h]

/-- C2: the canonical parameter string is exactly the `key=value` pairs
in the fixed field order (api_key, order_type, price, qty, side,
stop_loss, symbol, time_in_force, timestamp) joined by `&`; the order
builder signs exactly that string with the active secret. -/
theorem param_str_fixed_order :
    (∀ (api_key : String) (price : ℚ) (qty : ℕ) (side : String) (stop_loss : ℚ)
        (symbol : String) (timestamp : String),
      make_param_str api_key price qty side stop_loss symbol timestamp =
        join_amp
          ["api_key=" ++ api_key, "order_type=Limit", "price=" ++ fmt_f64 price,
           "qty=" ++ toString qty, "side=" ++ side, "stop_loss=" ++ fmt_f64 stop_loss,
           "symbol=" ++ symbol, "time_in_force=PostOnly", "timestamp=" ++ timestamp]) ∧
    (∀ (context : TradingContext) (symbol : String) (qty : ℤ) (price tick_step : ℚ)
        (now : ℕ),
      (build_order_request context symbol qty price tick_step now).2.sign =
        sign_private_request_params
          (build_order_request context symbol qty price tick_step now).1
          (get_api_secret context) ∧
      (build_order_request context symbol qty price tick_step now).1 =
        make_param_str (get_api_key context)
          (build_order_request context symbol qty price tick_step now).2.price
          (build_order_request context symbol qty price tick_step now).2.qty
          (build_order_request context symbol qty price tick_step now).2.side
          (build_order_request context symbol qty price tick_step now).2.stop_loss
          symbol (toString now)) := by
  constructor
  · intro api_key price qty side stop_loss symbol timestamp
    simp only [make_param_str, join_amp, String.append_assoc,
      str_append_left_merge "&" "order_type=Limit" "&order_type=Limit" rfl,
      str_append_left_merge "&" "price=" "&price=" rfl,
      str_append_left_merge "&order_type=Limit" "&price=" "&order_type=Limit&price=" rfl,
      str_append_left_merge "&" "qty=" "&qty=" rfl,
      str_append_left_merge "&" "side=" "&side=" rfl,
      str_append_left_merge "&" "stop_loss=" "&stop_loss=" rfl,
      str_append_left_merge "&" "symbol=" "&symbol=" rfl,
      str_append_left_merge "&" "time_in_force=PostOnly" "&time_in_force=PostOnly" rfl,
      str_append_left_merge "&" "timestamp=" "&timestamp=" rfl,
      str_append_left_merge "&time_in_force=PostOnly" "&timestamp="
        "&time_in_force=PostOnly&timestamp=" rfl]
  · intro context symbol qty price tick_step now
    exact ⟨rfl, rfl⟩

/-- `count_tick_steps` of the sample tick size `0.01`. -/
theorem count_tick_steps_hundredth : count_tick_steps (1 / 100 : ℚ) = 2 :=
  count_tick_steps_eq _ (by norm_num) 2 (by norm_num) (by
    intro m hm
    interval_cases m <;> norm_num)

/-- The target limit price on the buy side (`src/util.rs` line 38). -/
theorem build_price_buy (context : TradingContext) (symbol : String) (qty : ℤ)
    (price tick_step : ℚ) (now : ℕ) (h : 0 < qty) :
    (build_order_request context symbol qty price tick_step now).2.price =
      tick_round (price - tick_step) (10 ^ count_tick_steps tick_step) := by
  simp only [build_order_request, if_pos h]

/-- The target limit price on the sell side (`src/util.rs` line 38). -/
theorem build_price_sell (context : TradingContext) (symbol : String) (qty : ℤ)
    (price tick_step : ℚ) (now : ℕ) (h : qty < 0) :
    (build_order_request context symbol qty price tick_step now).2.price =
      tick_round (price + tick_step) (10 ^ count_tick_steps tick_step) := by
  have h' : ¬0 < qty := by omega
  simp only [build_order_request, if_neg h']

/-- The stop-loss price on the buy side (`src/util.rs` line 44). -/
theorem build_stop_loss_buy (context : TradingContext) (symbol : String) (qty : ℤ)
    (price tick_step : ℚ) (now : ℕ) (h : 0 < qty) :
    (build_order_request context symbol qty price tick_step now).2.stop_loss =
      tick_round (price * (1 - context.stop_loss_pcnt / 100))
        (10 ^ count_tick_steps tick_step) := by
  simp only [build_order_request, if_pos h]

/-- The stop-loss price on the sell side (`src/util.rs` line 44). -/
theorem build_stop_loss_sell (context : TradingContext) (symbol : String) (qty : ℤ)
    (price tick_step : ℚ) (now : ℕ) (h : qty < 0) :
    (build_order_request context symbol qty price tick_step now).2.stop_loss =
      tick_round (price * (1 + context.stop_loss_pcnt / 100))
        (10 ^ count_tick_steps tick_step) := by
  have h' : ¬0 < qty := by omega
  simp only [build_order_request, if_neg h']

/-- C3: the target limit price is the quoted price minus one tick for a
buy and plus one tick for a sell, tick-rounded; in particular, with
quote `100.00` and tick size `0.01` the buy-side limit price is `99.99`
and the sell-side limit price is `100.01`. -/
theorem target_limit_price_correct (context : TradingContext) (symbol : String)
    (qty : ℤ) (price tick_step : ℚ) (now : ℕ) :
    ((0 < qty →
        (build_order_request context symbol qty price tick_step now).2.price =
          tick_round (price - tick_step) (10 ^ count_tick_steps tick_step)) ∧
     (qty < 0 →
        (build_order_request context symbol qty price tick_step now).2.price =
          tick_round (price + tick_step) (10 ^ count_tick_steps tick_step))) ∧
    ((build_order_request sample_context "SYM" 1 100 (1 / 100) 42).2.price = 9999 / 100 ∧
     (build_order_request sample_context "SYM" (-1) 100 (1 / 100) 42).2.price = 10001 / 100) := by
  refine ⟨⟨fun h => build_price_buy _ _ _ _ _ _ h,
           fun h => build_price_sell _ _ _ _ _ _ h⟩, ?_, ?_⟩
  · rw [build_price_buy _ _ _ _ _ _ (by norm_num), count_tick_steps_hundredth]
    norm_num [tick_round, rust_round]
  · rw [build_price_sell _ _ _ _ _ _ (by norm_num), count_tick_steps_hundredth]
    norm_num [tick_round, rust_round]

/-- Witness for C3: the general rule applied on the buy side at quote
`100`, tick `0.01`, quantity `1`, and the concrete values. -/
theorem target_limit_price_correct_witness :
    ((build_order_request sample_context "SYM" 1 100 (1 / 100) 42).2.price =
      tick_round (100 - 1 / 100) (10 ^ count_tick_steps (1 / 100))) ∧
    (build_order_request sample_context "SYM" (-1) 100 (1 / 100) 42).2.price = 10001 / 100 :=
  ⟨(target_limit_price_correct sample_context "SYM" 1 100 (1 / 100) 42).1.1 (by norm_num),
   (target_limit_price_correct sample_context "SYM" (-1) 100 (1 / 100) 42).2.2⟩

/-- C4: the stop-loss price is the quoted price scaled by
`1 - pct / 100` for a buy and `1 + pct / 100` for a sell, tick-rounded;
in particular, with quote `100.00` and stop-loss percentage `0.2` the
buy-side stop-loss is `99.80` and the sell-side stop-loss is `100.20`. -/
theorem stop_loss_price_correct (context : TradingContext) (symbol : String)
    (qty : ℤ) (price tick_step : ℚ) (now : ℕ) :
    ((0 < qty →
        (build_order_request context symbol qty price tick_step now).2.stop_loss =
          tick_round (price * (1 - context.stop_loss_pcnt / 100))
            (10 ^ count_tick_steps tick_step)) ∧
     (qty < 0 →
        (build_order_request context symbol qty price tick_step now).2.stop_loss =
          tick_round (price * (1 + context.stop_loss_pcnt / 100))
            (10 ^ count_tick_steps tick_step))) ∧
    ((build_order_request sample_context "SYM" 1 100 (1 / 100) 42).2.stop_loss = 499 / 5 ∧
     (build_order_request sample_context "SYM" (-1) 100 (1 / 100) 42).2.stop_loss = 501 / 5) := by
  refine ⟨⟨fun h => build_stop_loss_buy _ _ _ _ _ _ h,
           fun h => build_stop_loss_sell _ _ _ _ _ _ h⟩, ?_, ?_⟩
  · rw [build_stop_loss_buy _ _ _ _ _ _ (by norm_num), count_tick_steps_hundredth]
    norm_num [tick_round, rust_round, sample_context]
  · rw [build_stop_loss_sell _ _ _ _ _ _ (by norm_num), count_tick_steps_hundredth]
    norm_num [tick_round, rust_round, sample_context]

/-- Witness for C4: the general rule applied on the buy side at quote
`100`, stop-loss percentage `0.2`, quantity `1`, and the concrete
values. -/
theorem stop_loss_price_correct_witness :
    ((build_order_request sample_context "SYM" 1 100 (1 / 100) 42).2.stop_loss =
      tick_round (100 * (1 - sample_context.stop_loss_pcnt / 100))
        (10 ^ count_tick_steps (1 / 100))) ∧
    (build_order_request sample_context "SYM" (-1) 100 (1 / 100) 42).2.stop_loss = 501 / 5 :=
  ⟨(stop_loss_price_correct sample_context "SYM" 1 100 (1 / 100) 42).1.1 (by norm_num),
   (stop_loss_price_correct sample_context "SYM" (-1) 100 (1 / 100) 42).2.2⟩

/-! ## Validation order and error classification -/

/-- A successful quote fetch has made exactly one transport call. -/
theorem quote_ok_count (env : QuoteEnv) (context : TradingContext) (symbol : String)
    (price : ℚ) (n : ℕ)
    (h : api_get_current_price env context symbol = (.ok price, n)) : n = 1 := by
  rcases env with ⟨u, r, resp⟩
  cases u
  · simp [api_get_current_price] at h
  · cases r
    · simp [api_get_current_price] at h
    · cases resp with
      | transportErr => simp [api_get_current_price] at h
      | decodeErr => simp [api_get_current_price] at h
      | ok json =>
          rcases json with ⟨rc, msg, result⟩
          by_cases hrc : rc = 0
          · subst hrc
            cases result with
            | none => simp [api_get_current_price] at h
            | some rows =>
                cases rows with
                | nil => simp [api_get_current_price] at h
                | cons row rest =>
                    cases hp : parse_f64 row.last_price with
                    | some p =>
                        simp [api_get_current_price, hp] at h
                        exact h.2.symm
                    | none => simp [api_get_current_price, hp] at h
          · simp [api_get_current_price, hrc] at h

/-- The sample exchange reply `"100.0"` parses to `100`. -/
theorem parse_f64_sample : parse_f64 "100.0" = some 100 := by
  have h : parse_f64 "100.0" =
      some ((1 : ℚ) * (((100 : ℕ) : ℚ) + ((0 : ℕ) : ℚ) / 10 ^ 1)) := rfl
  rw [h]
  norm_num

/-- The sample quote environment produces price `100` with one
transport call. -/
theorem sample_quote_price :
    api_get_current_price sample_quote_env sample_context "SYM" = (.ok 100, 1) := by
  simp [api_get_current_price, sample_quote_env, parse_f64_sample]

/-- C1 counterexample: with a known symbol and a fully successful
environment, a zero quantity is rejected with `IncorrectParameterValue`
only after one transport invocation (the quote fetch), so the claimed
"zero transport invocations before the error" is false. -/
theorem zero_qty_transport_called_counterexample :
    api_send_quick_limit_order sample_order_env sample_context "SYM" 0 =
      (.err .ErrorIncorrectParameterValue, 1) ∧
    api_send_quick_limit_order sample_order_env sample_context "SYM" 0 ≠
      (.err .ErrorIncorrectParameterValue, 0) := by
  constructor
  · decide
  · decide

/-- C1 amended: a zero quantity yields `IncorrectParameterValue` before
the order-submission network call but after the quote fetch: whenever
the symbol is known and the quote fetch succeeds, the order builder
returns `IncorrectParameterValue` having invoked the transport exactly
once (for the quote). -/
theorem zero_qty_rejected_after_quote (env : OrderEnv) (context : TradingContext)
    (symbol : String) (price : ℚ) (n : ℕ)
    (hsym : (context.tick_steps.lookup symbol).isSome = true)
    (hq : api_get_current_price env.quote context symbol = (.ok price, n)) :
    api_send_quick_limit_order env context symbol 0 =
      (.err .ErrorIncorrectParameterValue, 1) := by
  have hn := quote_ok_count _ _ _ _ _ hq
  subst hn
  rcases Option.isSome_iff_exists.mp hsym with ⟨t, ht⟩
  simp [api_send_quick_limit_order, ht, hq]

/-- Witness for C1 (amended) at the sample context and environment. -/
theorem zero_qty_rejected_after_quote_witness :
    api_send_quick_limit_order sample_order_env sample_context "SYM" 0 =
      (.err .ErrorIncorrectParameterValue, 1) :=
  zero_qty_rejected_after_quote sample_order_env sample_context "SYM" 100 1
    (by decide) sample_quote_price

/-- C7: a symbol absent from the tick-size mapping yields
`NoTickStepAvailable` with zero transport invocations, for every
environment, context and quantity. -/
theorem no_tick_step_no_network (env : OrderEnv) (context : TradingContext)
    (symbol : String) (qty : ℤ)
    (h : context.tick_steps.lookup symbol = none) :
    api_send_quick_limit_order env context symbol qty =
      (.err .InternalErrorNoTickStepAvailable, 0) := by
  simp [api_send_quick_limit_order, h]

/-- Witness for C7: symbol `"BTCUSD"` is not in the sample mapping. -/
theorem no_tick_step_no_network_witness :
    api_send_quick_limit_order sample_order_env sample_context "BTCUSD" 7 =
      (.err .InternalErrorNoTickStepAvailable, 0) :=
  no_tick_step_no_network sample_order_env sample_context "BTCUSD" 7 (by decide)

/-- C8 counterexample: a transport failure and a non-zero envelope
return code produce the identical error value `ErrorApiResponse`, so the
six failure modes of the quote fetcher are not pairwise
distinguishable. -/
theorem quote_failure_modes_counterexample :
    api_get_current_price { url_ok := true, request_ok := true, response := .transportErr }
        sample_context "SYM" = (.err .ErrorApiResponse, 1) ∧
    api_get_current_price
        { url_ok := true, request_ok := true,
          response := .ok { ret_code := 10001, ret_msg := "error", result := none } }
        sample_context "SYM" = (.err .ErrorApiResponse, 1) := by
  constructor
  · decide
  · decide

/-- C8 amended: each failure mode of the quote fetcher maps to a fixed
error kind; URL-construction failure (`ParsingRawUrl`),
request-construction failure (`CreatingHttpRequest`), empty result
(`ApiEmptyResult`) and non-numeric price (`NumericJsonParsingError`) are
pairwise distinct and distinct from `ApiResponseError`, but transport
failure and a non-zero envelope return code share the single kind
`ApiResponseError`. -/
theorem quote_failure_modes_classified (context : TradingContext) (symbol : String) :
    (∀ env : QuoteEnv, env.url_ok = false →
      api_get_current_price env context symbol = (.err .InternalErrorParsingRawUrl, 0)) ∧
    (∀ env : QuoteEnv, env.url_ok = true → env.request_ok = false →
      api_get_current_price env context symbol =
        (.err .InternalErrorCreatingHttpRequest, 0)) ∧
    (∀ env : QuoteEnv, env.url_ok = true → env.request_ok = true →
      env.response = .transportErr →
      api_get_current_price env context symbol = (.err .ErrorApiResponse, 1)) ∧
    (∀ (rc : ℕ) (msg : String) (res : Option (List TickerRow)), rc ≠ 0 →
      api_get_current_price ⟨true, true, .ok ⟨rc, msg, res⟩⟩ context symbol =
        (.err .ErrorApiResponse, 1)) ∧
    (∀ msg : String,
      api_get_current_price ⟨true, true, .ok ⟨0, msg, some []⟩⟩ context symbol =
        (.err .ApiEmptyResult, 1)) ∧
    (∀ (msg s : String) (rest : List TickerRow), parse_f64 s = none →
      api_get_current_price ⟨true, true, .ok ⟨0, msg, some (⟨s⟩ :: rest)⟩⟩ context symbol =
        (.err .ErrorNumericJsonParsing, 1)) ∧
    [StatusCode.InternalErrorParsingRawUrl, .InternalErrorCreatingHttpRequest,
      .ErrorApiResponse, .ApiEmptyResult, .ErrorNumericJsonParsing].Pairwise (· ≠ ·) := by
  refine ⟨?_, ?_, ?_, ?_, ?_, ?_, by decide⟩
  · intro env h
    rcases env with ⟨u, r, resp⟩
    cases u
    · simp [api_get_current_price]
    · simp at h
  · intro env h1 h2
    rcases env with ⟨u, r, resp⟩
    cases r
    · subst h1
      simp [api_get_current_price]
    · simp at h2
  · intro env h1 h2 h3
    rcases env with ⟨u, r, resp⟩
    subst h1
    subst h2
    subst h3
    simp [api_get_current_price]
  · intro rc msg res hrc
    simp [api_get_current_price, hrc]
  · intro msg
    simp [api_get_current_price]
  · intro msg s rest hparse
    simp [api_get_current_price, hparse]

/-- Witness for C8 (amended): each failure mode exercised at a concrete
environment. -/
theorem quote_failure_modes_classified_witness :
    api_get_current_price ⟨false, true, .transportErr⟩ sample_context "SYM" =
      (.err .InternalErrorParsingRawUrl, 0) ∧
    api_get_current_price ⟨true, false, .transportErr⟩ sample_context "SYM" =
      (.err .InternalErrorCreatingHttpRequest, 0) ∧
    api_get_current_price ⟨true, true, .transportErr⟩ sample_context "SYM" =
      (.err .ErrorApiResponse, 1) ∧
    api_get_current_price ⟨true, true, .ok ⟨10001, "error", none⟩⟩ sample_context "SYM" =
      (.err .ErrorApiResponse, 1) ∧
    api_get_current_price ⟨true, true, .ok ⟨0, "OK", some []⟩⟩ sample_context "SYM" =
      (.err .ApiEmptyResult, 1) ∧
    api_get_current_price ⟨true, true, .ok ⟨0, "OK", some [⟨"oops"⟩]⟩⟩ sample_context "SYM" =
      (.err .ErrorNumericJsonParsing, 1) :=
  ⟨(quote_failure_modes_classified sample_context "SYM").1 ⟨false, true, .transportErr⟩ rfl,
   (quote_failure_modes_classified sample_context "SYM").2.1 ⟨true, false, .transportErr⟩
     rfl rfl,
   (quote_failure_modes_classified sample_context "SYM").2.2.1 ⟨true, true, .transportErr⟩
     rfl rfl rfl,
   (quote_failure_modes_classified sample_context "SYM").2.2.2.1 10001 "error" none
     (by decide),
   (quote_failure_modes_classified sample_context "SYM").2.2.2.2.1 "OK",
   (quote_failure_modes_classified sample_context "SYM").2.2.2.2.2.1 "OK" "oops" []
     (by decide)⟩

/-- C9: the `assert!` in `sign_private_request_params` never fires:
verifying a freshly computed HMAC-SHA256 signature with the same key and
message always succeeds, for every parameter string and secret. -/
theorem hmac_verify_fresh_signature (str : String) (secret : String) :
    hmac_verify (str_bytes secret) (str_bytes str)
      (hmac_sha256 (str_bytes secret) (str_bytes str)) = true := by
  simp [hmac_verify]

/-- C10: for every nonzero `i64` quantity, including `i64::MIN` under
wrapping overflow semantics, the unsigned quantity placed in the request
body and in the canonical parameter string equals the mathematical
absolute value of the quantity. -/
theorem qty_abs_matches_natAbs (qty : ℤ) (h1 : -(2 ^ 63) ≤ qty) (h2 : qty < 2 ^ 63)
    (h3 : qty ≠ 0) :
    qty_abs_model qty = qty.natAbs ∧
    ∀ (context : TradingContext) (symbol : String) (price tick_step : ℚ) (now : ℕ),
      (build_order_request context symbol qty price tick_step now).2.qty = qty.natAbs ∧
      (build_order_request context symbol qty price tick_step now).1 =
        make_param_str (get_api_key context)
          (build_order_request context symbol qty price tick_step now).2.price
          qty.natAbs
          (build_order_request context symbol qty price tick_step now).2.side
          (build_order_request context symbol qty price tick_step now).2.stop_loss
          symbol (toString now) := by
  have habs : qty_abs_model qty = qty.natAbs := by
    simp only [qty_abs_model, rust_i64_abs, wrap_i64, i64_as_u64]
    by_cases hq : qty < 0
    · rw [if_pos hq]
      omega
    · rw [if_neg hq]
      omega
  refine ⟨habs, ?_⟩
  intro context symbol price tick_step now
  constructor
  · rw [show (build_order_request context symbol qty price tick_step now).2.qty =
        qty_abs_model qty from rfl, habs]
  · conv_lhs =>
      rw [show (build_order_request context symbol qty price tick_step now).1 =
        make_param_str (get_api_key context)
          (build_order_request context symbol qty price tick_step now).2.price
          (qty_abs_model qty)
          (build_order_request context symbol qty price tick_step now).2.side
          (build_order_request context symbol qty price tick_step now).2.stop_loss
          symbol (toString now) from rfl]
    rw [habs]

/-- Witness for C10 at `qty = i64::MIN = -(2 ^ 63)`. -/
theorem qty_abs_matches_natAbs_witness :
    qty_abs_model (-(2 ^ 63)) = ((-(2 ^ 63) : ℤ)).natAbs ∧
    qty_abs_model (-(2 ^ 63)) = 2 ^ 63 := by
  have h := (qty_abs_matches_natAbs (-(2 ^ 63)) (by norm_num) (by norm_num) (by norm_num)).1
  exact ⟨h, by rw [h, Int.natAbs_neg, Int.natAbs_pow]; norm_num⟩
